import Mathlib

/-!
Verification of the client-side process-state synchronization and control
layer of the port-bounty (Process Surgeon) repository.

The definitions below are a shallow embedding of the TypeScript source:
  - `src/process-surgeon/src/types/index.ts` (data model),
  - `src/process-surgeon/src/store/index.ts` (Zustand store: fetch, kill,
    container action, polling, favorites, history),
  - `src/process-surgeon/src/components/ProcessTable.tsx` (view pipeline),
  - `src/process-surgeon/src/components/PortSearchDialog.tsx` (port lookup),
  - `src/process-surgeon/src/components/ContextMenu.tsx` (kill menu items).

Asynchronous remote calls (`invoke`) are modelled by passing the remote
outcome as an explicit parameter; `Date.now()` and `Math.random()` strings
are threaded as explicit `now`/`rand` parameters.  JS `x || d` on strings
(falsy for `""`/absent) is modelled explicitly.  JS numbers appearing as
CPU percentages are modelled as `Rat`; counts, pids and ports as `Nat`.
-/

/-! ## Data model (types/index.ts) -/

inductive Protocol
| tcp
| udp
deriving DecidableEq, Repr

inductive SocketState
| LISTENING
| ESTABLISHED
| SYN_SENT
| SYN_RECEIVED
| FIN_WAIT_1
| FIN_WAIT_2
| CLOSE_WAIT
| CLOSING
| LAST_ACK
| TIME_WAIT
| CLOSED
| UNKNOWN
deriving DecidableEq, Repr

inductive ContainerRuntime
| docker
| podman
| containerd
| unknown
deriving DecidableEq, Repr

inductive ContainerAction
| stop
| kill
| remove
| restart
deriving DecidableEq, Repr

structure PortEntry where
  protocol : Protocol
  localAddress : String
  localPort : Nat
  remoteAddress : Option String
  remotePort : Option Nat
  state : SocketState
deriving DecidableEq, Repr

structure ContainerPort where
  hostPort : Nat
  containerPort : Nat
  protocol : Protocol
  hostIp : Option String
deriving DecidableEq, Repr

structure ContainerInfo where
  id : String
  name : String
  image : String
  status : String
  state : String
  runtime : ContainerRuntime
  ports : List ContainerPort
deriving DecidableEq, Repr

structure ProcessNode where
  id : String
  pid : Nat
  name : String
  exePath : Option String
  commandLine : Option String
  user : String
  memoryUsage : Nat
  cpuUsage : Rat
  startTime : Option String
  ports : List PortEntry
  isDockerProxy : Bool
  container : Option ContainerInfo
  isProtected : Bool
deriving DecidableEq, Repr

/-- Remote `get_processes` response payload (`AppState` in types/index.ts). -/
structure AppStateR where
  processes : List ProcessNode
  totalConnections : Nat
  listeningPorts : Nat
  dockerAvailable : Bool
  lastUpdated : String
deriving DecidableEq, Repr

structure KillResult where
  success : Bool
  message : String
  requiredElevation : Bool
deriving DecidableEq, Repr

/-- `selectedProtocol : Protocol | 'all'` in `FilterOptions`. -/
inductive ProtocolFilter
| all
| proto (p : Protocol)
deriving DecidableEq, Repr

/-- `selectedState : SocketState | 'all'` in `FilterOptions`. -/
inductive StateFilter
| all
| state (s : SocketState)
deriving DecidableEq, Repr

structure FilterOptions where
  showAllConnections : Bool
  searchQuery : String
  selectedProtocol : ProtocolFilter
  selectedState : StateFilter
deriving DecidableEq, Repr

inductive SortField
| pid
| name
| port
| memory
| cpu
| user
deriving DecidableEq, Repr

inductive SortDirection
| asc
| desc
deriving DecidableEq, Repr

structure SortOptions where
  field : SortField
  direction : SortDirection
deriving DecidableEq, Repr

/-! ## History entries (store/index.ts `addHistoryEntry`)

The `HistoryEntry` type is declared in the (absent) `HistoryPanel` component;
its fields are taken from the store, which constructs every entry:
`action`, `processName`, `pid`, `port`, `success`, `message`, plus the
store-generated `id` and `timestamp`. -/

inductive HistoryAction
| kill
| force_kill
| container_stop
| container_kill
deriving DecidableEq, Repr

structure HistoryEntry where
  id : String
  timestamp : Nat
  action : HistoryAction
  processName : String
  pid : Nat
  port : Option Nat
  success : Bool
  message : String
deriving DecidableEq, Repr

/-- The argument of `addHistoryEntry`: `Omit<HistoryEntry, 'id' | 'timestamp'>`. -/
structure HistoryEntryData where
  action : HistoryAction
  processName : String
  pid : Nat
  port : Option Nat
  success : Bool
  message : String
deriving DecidableEq, Repr

/-- The entry object built inside `addHistoryEntry`:
`{...entry, id: Date.now()-randomSuffix, timestamp: new Date()}`;
`now` models both `Date.now()` and the timestamp, `rand` the
`Math.random().toString(36).substr(2, 9)` suffix. -/
def mkHistoryEntry (e : HistoryEntryData) (now : Nat) (rand : String) : HistoryEntry :=
  { id := toString now ++ "-" ++ rand
    timestamp := now
    action := e.action
    processName := e.processName
    pid := e.pid
    port := e.port
    success := e.success
    message := e.message }

/-- `addHistoryEntry`: prepend the new entry and `.slice(0, 100)`. -/
def addHistoryEntry (e : HistoryEntryData) (now : Nat) (rand : String)
    (history : List HistoryEntry) : List HistoryEntry :=
  (mkHistoryEntry e now rand :: history).take 100

/-! ## Store state (store/index.ts) -/

structure Store where
  processes : List ProcessNode
  totalConnections : Nat
  listeningPorts : Nat
  dockerAvailable : Bool
  lastUpdated : Option String
  isLoading : Bool
  error : Option String
  selectedPid : Option Nat
  selectedPids : List Nat
  filterOptions : FilterOptions
  sortOptions : SortOptions
  favoritePorts : List Nat
  history : List HistoryEntry
  pollingInterval : Nat
  isPolling : Bool
  showDetailsPanel : Bool
deriving DecidableEq, Repr

/-- The initial store state (store/index.ts lines 65-99), with the
favorites list — which the source reads from localStorage, see
`favoritePortsInit` — supplied as a parameter. -/
def initialStore (favoritePorts : List Nat) : Store :=
  { processes := []
    totalConnections := 0
    listeningPorts := 0
    dockerAvailable := false
    lastUpdated := none
    isLoading := false
    error := none
    selectedPid := none
    selectedPids := []
    filterOptions :=
      { showAllConnections := false
        searchQuery := ""
        selectedProtocol := .all
        selectedState := .all }
    sortOptions := { field := .port, direction := .asc }
    favoritePorts := favoritePorts
    history := []
    pollingInterval := 2000
    isPolling := false
    showDetailsPanel := false }

/-! ## Favorites persistence (store/index.ts line 89)

`favoritePorts: JSON.parse(localStorage.getItem('favoritePorts') || '[]')`.
`JSON.parse` is a platform builtin; it is modelled here restricted to the
domain of the favorites key — JSON arrays of nonnegative integers — by
`parseJsonNumberArray`, which returns `none` exactly where `JSON.parse`
would throw a `SyntaxError` (or produce a non-array value) on that input. -/

def skipWs : List Char → List Char
  | [] => []
  | c :: cs => if c = ' ' ∨ c = '\t' ∨ c = '\n' ∨ c = '\r' then skipWs cs else c :: cs

def parseDigitsAux (acc : Nat) : List Char → Nat × List Char
  | [] => (acc, [])
  | c :: cs =>
    if c.isDigit then parseDigitsAux (acc * 10 + (c.toNat - '0'.toNat)) cs
    else (acc, c :: cs)

/-- Parse a nonempty run of leading decimal digits. -/
def parseNum : List Char → Option (Nat × List Char)
  | [] => none
  | c :: cs =>
    if c.isDigit then some (parseDigitsAux (c.toNat - '0'.toNat) cs)
    else none

def parseItems (fuel : Nat) (cs : List Char) (acc : List Nat) : Option (List Nat) :=
  match fuel with
  | 0 => none
  | fuel + 1 =>
    match parseNum (skipWs cs) with
    | none => none
    | some (n, rest) =>
      match skipWs rest with
      | ']' :: rest2 => if skipWs rest2 = [] then some (acc ++ [n]) else none
      | ',' :: rest2 => parseItems fuel rest2 (acc ++ [n])
      | _ => none

def parseJsonNumberArray (s : String) : Option (List Nat) :=
  match skipWs s.data with
  | '[' :: rest =>
    match skipWs rest with
    | ']' :: rest2 => if skipWs rest2 = [] then some [] else none
    | _ => parseItems (s.length + 1) rest []
  | _ => none

/-- Store-module initialization of `favoritePorts`:
`JSON.parse(localStorage.getItem('favoritePorts') || '[]')` with no
try/catch around it.  `stored = none` models an absent key (`getItem`
returns `null`); JS `||` also replaces the falsy `""`.  A parse failure
is the uncaught `SyntaxError` thrown by `JSON.parse`, which crashes store
initialization — modelled as `Except.error`. -/
def favoritePortsInit (stored : Option String) : Except String (List Nat) :=
  let s := match stored with
    | none => "[]"
    | some str => if str = "" then "[]" else str
  match parseJsonNumberArray s with
  | some l => Except.ok l
  | none => Except.error "SyntaxError: JSON.parse failed"

/-! ## Favorites mutations (store/index.ts lines 276-299)

Each mutation also writes the new list through to localStorage; the
write-through is value-equal to the returned list and is not modelled
separately. -/

def addFavoritePort (port : Nat) (favoritePorts : List Nat) : List Nat :=
  favoritePorts ++ [port]

def removeFavoritePort (port : Nat) (favoritePorts : List Nat) : List Nat :=
  favoritePorts.filter (fun p => p != port)

def toggleFavoritePort (port : Nat) (favoritePorts : List Nat) : List Nat :=
  if favoritePorts.contains port then removeFavoritePort port favoritePorts
  else addFavoritePort port favoritePorts

/-! ## Remote-call outcomes

`invoke` either resolves with a payload or rejects; the caller casts the
rejection to `AppError` and reads `error.message` (a string; JS
`error.message || default` substitutes the default when the message is
absent or empty — absence is folded into the `""` case). -/

inductive FetchOutcome
| ok (result : AppStateR)
| thrown (message : String)
deriving DecidableEq, Repr

inductive RemoteOutcome
| ok (result : KillResult)
| thrown (message : String)
deriving DecidableEq, Repr

/-- JS `s || default` for an optional string: absent, or present but
empty (falsy), yields the default. -/
def orElseStr (s : Option String) (d : String) : String :=
  match s with
  | none => d
  | some v => if v = "" then d else v

/-! ## fetchProcesses (store/index.ts lines 102-126) -/

/-- `fetchProcesses`: `set({isLoading: true, error: null})`, then on a
resolved `get_processes` replace the snapshot fields and clear
`isLoading`; on a rejection set only `error` and `isLoading`. -/
def fetchProcesses (st : Store) (outcome : FetchOutcome) : Store :=
  let st1 := { st with isLoading := true, error := none }
  match outcome with
  | .ok r =>
    { st1 with
      processes := r.processes
      totalConnections := r.totalConnections
      listeningPorts := r.listeningPorts
      dockerAvailable := r.dockerAvailable
      lastUpdated := some r.lastUpdated
      isLoading := false }
  | .thrown m =>
    { st1 with
      error := some (orElseStr (some m) "Failed to fetch processes")
      isLoading := false }

/-! ## killProcess and containerAction (store/index.ts lines 138-224) -/

/-- Observable effects of one `killProcess`/`containerAction` invocation:
the store afterwards (history updated), the returned `KillResult`, whether
the remote call was issued, and the settle delay of the follow-up
`fetchProcesses` scheduled via `setTimeout` (none when no refresh is
scheduled). -/
structure ActionTrace where
  store : Store
  result : KillResult
  remoteCalled : Bool
  refreshDelay : Option Nat
deriving DecidableEq, Repr

/-- `killProcess(pid, force)`: look up the process for audit context,
issue the remote `kill_process` call unconditionally, append exactly one
history entry in both the resolved and the rejected branch, schedule a
500 ms refresh on `result.success`, and never rethrow. -/
def killProcess (st : Store) (pid : Nat) (force : Bool) (outcome : RemoteOutcome)
    (now : Nat) (rand : String) : ActionTrace :=
  let process := st.processes.find? (fun p => p.pid == pid)
  match outcome with
  | .ok result =>
    let entry : HistoryEntryData :=
      { action := if force then .force_kill else .kill
        processName := orElseStr (process.map (fun p => p.name)) "Unknown"
        pid := pid
        port := process.bind (fun p => (p.ports.head?).map (fun b => b.localPort))
        success := result.success
        message := result.message }
    { store := { st with history := addHistoryEntry entry now rand st.history }
      result := result
      remoteCalled := true
      refreshDelay := if result.success then some 500 else none }
  | .thrown m =>
    let msg := orElseStr (some m) "Failed to kill process"
    let entry : HistoryEntryData :=
      { action := if force then .force_kill else .kill
        processName := orElseStr (process.map (fun p => p.name)) "Unknown"
        pid := pid
        port := process.bind (fun p => (p.ports.head?).map (fun b => b.localPort))
        success := false
        message := msg }
    { store := { st with history := addHistoryEntry entry now rand st.history }
      result := { success := false, message := msg, requiredElevation := false }
      remoteCalled := true
      refreshDelay := none }

/-- `containerAction(containerId, action)`: matched by `container.id`,
history name falls back to `containerId.slice(0, 12)`, `pid` to `0`,
1000 ms settle delay on success; same unconditional audit protocol. -/
def containerAction (st : Store) (containerId : String) (action : ContainerAction)
    (outcome : RemoteOutcome) (now : Nat) (rand : String) : ActionTrace :=
  let process := st.processes.find? (fun p =>
    match p.container with
    | some c => c.id == containerId
    | none => false)
  let histAction : HistoryAction :=
    if action = ContainerAction.stop then .container_stop else .container_kill
  let histName :=
    orElseStr ((process.bind (fun p => p.container)).map (fun c => c.name))
      (containerId.take 12)
  let histPid := (process.map (fun p => p.pid)).getD 0
  let histPort := process.bind (fun p => (p.ports.head?).map (fun b => b.localPort))
  match outcome with
  | .ok result =>
    let entry : HistoryEntryData :=
      { action := histAction
        processName := histName
        pid := histPid
        port := histPort
        success := result.success
        message := result.message }
    { store := { st with history := addHistoryEntry entry now rand st.history }
      result := result
      remoteCalled := true
      refreshDelay := if result.success then some 1000 else none }
  | .thrown m =>
    let msg := orElseStr (some m) "Failed to execute container action"
    let entry : HistoryEntryData :=
      { action := histAction
        processName := histName
        pid := histPid
        port := histPort
        success := false
        message := msg }
    { store := { st with history := addHistoryEntry entry now rand st.history }
      result := { success := false, message := msg, requiredElevation := false }
      remoteCalled := true
      refreshDelay := none }

/-! ## Polling (store/index.ts lines 252-273)

`startPolling` destructures `pollingInterval` from `get()` once; the
recursive `poll` closure re-reads only `isPolling` freshly, so the timer
delay it arms is the value captured when polling started. -/

/-- The environment captured by the `poll` closure created in
`startPolling`: the `pollingInterval` destructured at start time. -/
structure PollLoop where
  capturedInterval : Nat
deriving DecidableEq, Repr

/-- `startPolling`: a no-op when already polling, otherwise set
`isPolling` and create the `poll` closure capturing the current
interval (the closure also runs immediately; its steps are modelled by
`pollStep`). -/
def startPolling (st : Store) : Store × Option PollLoop :=
  if st.isPolling then (st, none)
  else ({ st with isPolling := true }, some { capturedInterval := st.pollingInterval })

def stopPolling (st : Store) : Store :=
  { st with isPolling := false }

def setPollingInterval (ms : Nat) (st : Store) : Store :=
  { st with pollingInterval := ms }

/-- One execution of the `poll` closure body: if `get().isPolling` is
still set, await `fetchProcesses` (which never rethrows) and then arm
`setTimeout(poll, pollingInterval)` with the captured interval; returns
the new store and the armed delay (`none` when the loop exits). -/
def pollStep (loop : PollLoop) (st : Store) (outcome : FetchOutcome) :
    Store × Option Nat :=
  if st.isPolling then (fetchProcesses st outcome, some loop.capturedInterval)
  else (st, none)

/-! ## View pipeline (components/ProcessTable.tsx lines 23-102) -/

/-- JS `String.prototype.includes` on char lists. -/
def containsSub : List Char → List Char → Bool
  | [], q => q.isEmpty
  | c :: rest, q => q.isPrefixOf (c :: rest) || containsSub rest q

def strIncludes (s q : String) : Bool :=
  containsSub s.data q.data

/-- The search clause of `filteredProcesses` (ProcessTable.tsx lines
29-36): case-insensitive substring match against name, stringified pid,
user, command line, container name, or any stringified local port. -/
def matchesSearch (searchQuery : String) (p : ProcessNode) : Bool :=
  let query := searchQuery.toLower
  strIncludes p.name.toLower query ||
  strIncludes (toString p.pid) query ||
  strIncludes p.user.toLower query ||
  (match p.commandLine with
   | some c => strIncludes c.toLower query
   | none => false) ||
  (match p.container with
   | some c => strIncludes c.name.toLower query
   | none => false) ||
  p.ports.any (fun port => strIncludes (toString port.localPort) query)

/-- `filteredProcesses`: search, protocol and state clauses in sequence;
the search clause is skipped for the falsy empty query. -/
def filteredProcesses (fo : FilterOptions) (processes : List ProcessNode) :
    List ProcessNode :=
  let r1 := if fo.searchQuery = "" then processes
    else processes.filter (matchesSearch fo.searchQuery)
  let r2 := match fo.selectedProtocol with
    | .all => r1
    | .proto pr => r1.filter (fun p => p.ports.any (fun port => port.protocol == pr))
  match fo.selectedState with
  | .all => r2
  | .state ss => r2.filter (fun p => p.ports.any (fun port => port.state == ss))

/-- `hasFavoritePort` (ProcessTable.tsx lines 61-62). -/
def hasFavoritePort (favoritePorts : List Nat) (p : ProcessNode) : Bool :=
  p.ports.any (fun port => favoritePorts.contains port.localPort)

/-- Three-way comparison by `<`, the sign of the JS numeric/locale
comparisons used in the sort comparator. -/
def cmpLO {α : Type} [LinearOrder α] (a b : α) : Ordering :=
  if a < b then .lt else if b < a then .gt else .eq

/-- The per-field secondary comparison of the sort comparator
(ProcessTable.tsx lines 75-96): numeric for pid/port/memory/cpu
(port uses the first binding's local port, defaulting to 0),
locale-aware string comparison for name/user. -/
def fieldCmp (field : SortField) (a b : ProcessNode) : Ordering :=
  match field with
  | .pid => cmpLO a.pid b.pid
  | .name => cmpLO a.name b.name
  | .port => cmpLO ((a.ports.head?.map (fun x => x.localPort)).getD 0)
      ((b.ports.head?.map (fun x => x.localPort)).getD 0)
  | .memory => cmpLO a.memoryUsage b.memoryUsage
  | .cpu => cmpLO a.cpuUsage b.cpuUsage
  | .user => cmpLO a.user b.user

/-- `direction === 'asc' ? comparison : -comparison` (line 98). -/
def dirCmp (so : SortOptions) (a b : ProcessNode) : Ordering :=
  if so.direction = SortDirection.asc then fieldCmp so.field a b
  else (fieldCmp so.field a b).swap

/-- The full sort comparator (ProcessTable.tsx lines 64-99): favorite
status first — `return aFav ? -1 : 1`, not subject to the direction
flip — then the direction-adjusted field comparison. -/
def processCmp (so : SortOptions) (favoritePorts : List Nat) (a b : ProcessNode) :
    Ordering :=
  let aFav := hasFavoritePort favoritePorts a
  let bFav := hasFavoritePort favoritePorts b
  if aFav != bFav then (if aFav then .lt else .gt)
  else dirCmp so a b

/-- `Array.prototype.sort` keeps `[a, b]` in order when the comparator
returns a nonpositive number. -/
def sortLe (so : SortOptions) (favoritePorts : List Nat) (a b : ProcessNode) : Bool :=
  (processCmp so favoritePorts a b).isLE

/-- `sortedProcesses` (ProcessTable.tsx lines 57-102): a stable sort of
the filtered list by the comparator; JS `sort` is modelled by
`List.mergeSort`, stable and comparator-consistent. -/
def sortedProcesses (so : SortOptions) (favoritePorts : List Nat)
    (filtered : List ProcessNode) : List ProcessNode :=
  filtered.mergeSort (sortLe so favoritePorts)

/-- The view pipeline: `filteredProcesses` then `sortedProcesses`. -/
def viewPipeline (processes : List ProcessNode) (fo : FilterOptions)
    (so : SortOptions) (favoritePorts : List Nat) : List ProcessNode :=
  sortedProcesses so favoritePorts (filteredProcesses fo processes)

/-! ## Port search dialog (components/PortSearchDialog.tsx lines 40-61) -/

/-- JS `parseInt(s, 10)`: skip leading whitespace, optional sign, then a
nonempty digit run (trailing characters ignored); `none` is `NaN`. -/
def parseIntJS (s : String) : Option Int :=
  match skipWs s.data with
  | '-' :: rest => (parseNum rest).map (fun x => -(x.1 : Int))
  | '+' :: rest => (parseNum rest).map (fun x => (x.1 : Int))
  | cs => (parseNum cs).map (fun x => (x.1 : Int))

/-- What `handleSearch` does with the entered string: either reject with
the validation error (no remote call) or issue the remote `find_port`
call through the store's `findPort`, which performs no validation of its
own. -/
inductive SearchAction
| rejected (error : String)
| remoteCall (port : Int)
deriving DecidableEq, Repr

/-- `handleSearch` (PortSearchDialog.tsx lines 40-61): parse, then
`if (isNaN(portNum) || portNum < 1 || portNum > 65535)` reject before
calling `findPort`. -/
def handleSearch (portStr : String) : SearchAction :=
  match parseIntJS portStr with
  | none => .rejected "Please enter a valid port number (1-65535)"
  | some portNum =>
    if portNum < 1 ∨ portNum > 65535 then
      .rejected "Please enter a valid port number (1-65535)"
    else .remoteCall portNum

/-! ## Context menu kill items (components/ContextMenu.tsx lines 88-105)

Both the Graceful Stop and the Force Kill menu items carry
`disabled: process.isProtected`; a disabled button never fires its
`onKill` action. -/

/-- A store in the `polling` state. -/
def pollingStore : Store :=
  { initialStore [] with isPolling := true }

def sampleData : HistoryEntryData :=
  { action := .kill
    processName := "node"
    pid := 42
    port := some 3000
    success := true
    message := "ok" }

/-- A history already holding 100 entries. -/
def sampleHistory : List HistoryEntry :=
  List.replicate 100 (mkHistoryEntry sampleData 0 "seed")

/-! ## Comparator lemmas -/

lemma cmpLO_swap {α : Type} [LinearOrder α] (a b : α) :
    cmpLO a b = (cmpLO b a).swap := by
  unfold cmpLO
  rcases lt_trichotomy a b with h | h | h
  · simp [h, lt_asymm h, Ordering.swap]
  · simp [h, lt_irrefl, Ordering.swap]
  · simp [h, lt_asymm h, Ordering.swap]

lemma cmpLO_isLE_iff {α : Type} [LinearOrder α] (a b : α) :
    (cmpLO a b).isLE = true ↔ a ≤ b := by
  unfold cmpLO
  split_ifs with h1 h2
  · simp [Ordering.isLE, le_of_lt h1]
  · simp [Ordering.isLE, not_le.mpr h2]
  · simp [Ordering.isLE, le_of_not_lt h2]

lemma fieldCmp_swap (f : SortField) (a b : ProcessNode) :
    fieldCmp f a b = (fieldCmp f b a).swap := by
  cases f <;> simp only [fieldCmp] <;> exact cmpLO_swap _ _

lemma fieldCmp_isLE_trans (f : SortField) (a b c : ProcessNode)
    (hab : (fieldCmp f a b).isLE = true) (hbc : (fieldCmp f b c).isLE = true) :
    (fieldCmp f a c).isLE = true := by
  cases f <;> simp only [fieldCmp, cmpLO_isLE_iff] at hab hbc ⊢ <;>
    exact le_trans hab hbc

lemma dirCmp_swap (so : SortOptions) (a b : ProcessNode) :
    dirCmp so a b = (dirCmp so b a).swap := by
  unfold dirCmp
  split_ifs with h
  · exact fieldCmp_swap so.field a b
  · rw [fieldCmp_swap so.field a b, Ordering.swap_swap]

lemma dirCmp_isLE_trans (so : SortOptions) (a b c : ProcessNode)
    (hab : (dirCmp so a b).isLE = true) (hbc : (dirCmp so b c).isLE = true) :
    (dirCmp so a c).isLE = true := by
  unfold dirCmp at hab hbc ⊢
  split_ifs at hab hbc ⊢ with h
  · exact fieldCmp_isLE_trans so.field a b c hab hbc
  · rw [fieldCmp_swap so.field a b, Ordering.swap_swap] at hab
    rw [fieldCmp_swap so.field b c, Ordering.swap_swap] at hbc
    rw [fieldCmp_swap so.field a c, Ordering.swap_swap]
    exact fieldCmp_isLE_trans so.field c b a hbc hab

lemma processCmp_swap (so : SortOptions) (favs : List Nat) (a b : ProcessNode) :
    processCmp so favs a b = (processCmp so favs b a).swap := by
  unfold processCmp
  cases ha : hasFavoritePort favs a <;> cases hb : hasFavoritePort favs b <;>
    simp [ha, hb, dirCmp_swap so a b, Ordering.swap]

lemma sortLe_trans (so : SortOptions) (favs : List Nat) (a b c : ProcessNode)
    (hab : sortLe so favs a b = true) (hbc : sortLe so favs b c = true) :
    sortLe so favs a c = true := by
  unfold sortLe processCmp at hab hbc ⊢
  cases ha : hasFavoritePort favs a <;> cases hb : hasFavoritePort favs b <;>
    cases hc : hasFavoritePort favs c <;>
    simp [ha, hb, hc, Ordering.isLE] at hab hbc ⊢
  · exact dirCmp_isLE_trans so a b c hab hbc
  · exact dirCmp_isLE_trans so a b c hab hbc

lemma sortLe_total (so : SortOptions) (favs : List Nat) (a b : ProcessNode) :
    (sortLe so favs a b || sortLe so favs b a) = true := by
  unfold sortLe
  rw [processCmp_swap so favs a b]
  cases processCmp so favs b a <;> rfl

/-- Output of the sort is pairwise ordered by the comparator. -/
lemma sortedProcesses_pairwise (so : SortOptions) (favs : List Nat)
    (l : List ProcessNode) :
    List.Pairwise (fun a b => sortLe so favs a b = true)
      (sortedProcesses so favs l) :=
  List.sorted_mergeSort (sortLe_trans so favs) (sortLe_total so favs) l

/-! ## Claim theorems -/

/-- C2: store initialization of `favoritePorts` does not crash on absent
data (it yields `[]`), but on malformed non-JSON content `JSON.parse`
throws and no try/catch intercepts it — initialization crashes instead of
defaulting to the empty list. -/
theorem favoritePortsInit_crashes_on_corrupt :
    favoritePortsInit none = Except.ok [] ∧
    favoritePortsInit (some "") = Except.ok [] ∧
    favoritePortsInit (some "[3000,8080]") = Except.ok [3000, 8080] ∧
    favoritePortsInit (some "oops") = Except.error "SyntaxError: JSON.parse failed" := by
  refine ⟨rfl, rfl, rfl, rfl⟩

/-- C3, counterexample: `addFavoritePort` appends unconditionally, so
adding a port already present introduces a duplicate entry instead of
leaving the favorites unchanged. -/
theorem addFavoritePort_duplicate_cex :
    addFavoritePort 3000 [3000] = [3000, 3000] ∧
    ¬ (addFavoritePort 3000 [3000]).Nodup ∧
    addFavoritePort 3000 [3000] ≠ [3000] := by
  decide

/-- C3, amended: `addFavoritePort(p)` appends `p` unconditionally — for
`p` already present the list gains a duplicate; adding an absent port
preserves dedup, and the guarded mutation path `toggleFavoritePort`
(which adds only after a membership check) always preserves dedup. -/
theorem addFavoritePort_appends (port : Nat) (favs : List Nat) :
    addFavoritePort port favs = favs ++ [port] ∧
    (port ∉ favs → favs.Nodup → (addFavoritePort port favs).Nodup) ∧
    (favs.Nodup → (toggleFavoritePort port favs).Nodup) := by
  refine ⟨rfl, ?_, ?_⟩
  · intro hp hn
    unfold addFavoritePort
    simp [List.nodup_append, hn, hp]
  · intro hn
    unfold toggleFavoritePort
    split_ifs with h
    · exact hn.filter _
    · have hp : port ∉ favs := by simpa using h
      unfold addFavoritePort
      simp [List.nodup_append, hn, hp]

/-- Witness for `addFavoritePort_appends` with an absent port. -/
theorem addFavoritePort_appends_witness :
    addFavoritePort 443 [80] = [80] ++ [443] ∧
    (addFavoritePort 443 [80]).Nodup ∧
    (toggleFavoritePort 443 [80]).Nodup :=
  ⟨(addFavoritePort_appends 443 [80]).1,
   (addFavoritePort_appends 443 [80]).2.1 (by decide) (by decide),
   (addFavoritePort_appends 443 [80]).2.2 (by decide)⟩

/-- C4: while polling, `setPollingInterval` does not take effect on the
next scheduled fetch.  Polling started at interval 2000 captures 2000 in
the `poll` closure; after `setPollingInterval 5000` the store holds 5000,
yet the next re-arm still uses the captured 2000. -/
theorem setPollingInterval_stale_cex :
    (startPolling (initialStore [])).2 = some { capturedInterval := 2000 } ∧
    (setPollingInterval 5000 (startPolling (initialStore [])).1).pollingInterval
      = 5000 ∧
    (pollStep { capturedInterval := 2000 }
      (setPollingInterval 5000 (startPolling (initialStore [])).1)
      (.thrown "backend down")).2 = some 2000 :=
  ⟨rfl, rfl, rfl⟩

/-- C5: in the view pipeline's output, for every snapshot, filter spec,
sort spec (any field, either direction) and favorites registry, every
process with a favorited port appears before every process without one. -/
theorem viewPipeline_favorites_first (processes : List ProcessNode)
    (fo : FilterOptions) (so : SortOptions) (favs : List Nat) :
    List.Pairwise
      (fun a b => hasFavoritePort favs b = true → hasFavoritePort favs a = true)
      (viewPipeline processes fo so favs) := by
  have h := sortedProcesses_pairwise so favs (filteredProcesses fo processes)
  refine h.imp ?_
  intro a b hab hbf
  cases hx : hasFavoritePort favs a
  · exfalso
    simp [sortLe, processCmp, hx, hbf, Ordering.isLE] at hab
  · rfl

/-- C6: every invocation of `killProcess` or `containerAction` — whether
the remote call resolves with success, resolves with failure, or throws —
appends exactly one new history entry at the head of the log. -/
theorem action_appends_exactly_one_entry (st : Store) (pid : Nat) (force : Bool)
    (containerId : String) (action : ContainerAction) (out1 out2 : RemoteOutcome)
    (n1 n2 : Nat) (r1 r2 : String) :
    (∃ e, (killProcess st pid force out1 n1 r1).store.history
        = (e :: st.history).take 100) ∧
    (∃ e, (containerAction st containerId action out2 n2 r2).store.history
        = (e :: st.history).take 100) := by
  constructor
  · cases out1 <;> exact ⟨_, rfl⟩
  · cases out2 <;> exact ⟨_, rfl⟩

/-- C7: the history log never exceeds 100 entries, each new entry is
prepended at the head, and appending to a log of exactly 100 entries
discards the oldest entry. -/
theorem addHistoryEntry_bounded (e : HistoryEntryData) (now : Nat) (rand : String)
    (history : List HistoryEntry) :
    (addHistoryEntry e now rand history).length ≤ 100 ∧
    addHistoryEntry e now rand history
      = mkHistoryEntry e now rand :: history.take 99 ∧
    (addHistoryEntry e now rand history).head? = some (mkHistoryEntry e now rand) ∧
    (history.length = 100 →
      addHistoryEntry e now rand history
        = mkHistoryEntry e now rand :: history.dropLast) := by
  refine ⟨?_, rfl, rfl, ?_⟩
  · unfold addHistoryEntry
    simp [List.length_take]
  · intro h100
    have h2 : addHistoryEntry e now rand history
        = mkHistoryEntry e now rand :: history.take 99 := rfl
    rw [h2, List.dropLast_eq_take, h100]

/-- Witness for `addHistoryEntry_bounded` at a log of exactly 100
entries. -/
theorem addHistoryEntry_bounded_witness :
    (addHistoryEntry sampleData 1 "r" sampleHistory).length ≤ 100 ∧
    addHistoryEntry sampleData 1 "r" sampleHistory
      = mkHistoryEntry sampleData 1 "r" :: sampleHistory.dropLast := by
  have h := addHistoryEntry_bounded sampleData 1 "r" sampleHistory
  exact ⟨h.1, h.2.2.2 (by simp [sampleHistory])⟩

/-- C8: when `get_processes` throws, `fetchProcesses` leaves the snapshot
fields (processes, totalConnections, listeningPorts, dockerAvailable,
lastUpdated) unchanged, updating only the error message and the loading
flag, and an active poll loop still arms the next fetch at the captured
cadence. -/
theorem fetchProcesses_failure_frame (st : Store) (loop : PollLoop) (m : String)
    (hp : st.isPolling = true) :
    (fetchProcesses st (.thrown m)).processes = st.processes ∧
    (fetchProcesses st (.thrown m)).totalConnections = st.totalConnections ∧
    (fetchProcesses st (.thrown m)).listeningPorts = st.listeningPorts ∧
    (fetchProcesses st (.thrown m)).dockerAvailable = st.dockerAvailable ∧
    (fetchProcesses st (.thrown m)).lastUpdated = st.lastUpdated ∧
    (fetchProcesses st (.thrown m)).error
      = some (orElseStr (some m) "Failed to fetch processes") ∧
    (fetchProcesses st (.thrown m)).isLoading = false ∧
    (pollStep loop st (.thrown m)).2 = some loop.capturedInterval := by
  refine ⟨rfl, rfl, rfl, rfl, rfl, rfl, rfl, ?_⟩
  unfold pollStep
  rw [hp]
  rfl

/-- Witness for `fetchProcesses_failure_frame` on a polling store and a
rejected fetch. -/
theorem fetchProcesses_failure_frame_witness :
    (fetchProcesses pollingStore (.thrown "denied")).processes
      = pollingStore.processes ∧
    (pollStep { capturedInterval := 2000 } pollingStore (.thrown "denied")).2
      = some 2000 := by
  have h := fetchProcesses_failure_frame pollingStore
    { capturedInterval := 2000 } "denied" rfl
  exact ⟨h.1, h.2.2.2.2.2.2.2⟩

/-- C9: the port-search dialog issues the remote `find_port` call only
for parsed port values inside 1-65535; every out-of-range value — in
particular 70000 — is rejected with the validation error before any
remote call. -/
theorem handleSearch_validates (s : String) (n : Int)
    (h : handleSearch s = SearchAction.remoteCall n) :
    (1 ≤ n ∧ n ≤ 65535) ∧
    handleSearch "70000"
      = SearchAction.rejected "Please enter a valid port number (1-65535)" := by
  constructor
  · cases hp : parseIntJS s with
    | none =>
      simp [handleSearch, hp] at h
    | some m =>
      simp only [handleSearch, hp] at h
      split_ifs at h with hc
      push_neg at hc
      simp only [SearchAction.remoteCall.injEq] at h
      omega
  · decide

/-- Witness for `handleSearch_validates` at the in-range input "8080". -/
theorem handleSearch_validates_witness :
    ((1:Int) ≤ 8080 ∧ (8080:Int) ≤ 65535) ∧
    handleSearch "70000"
      = SearchAction.rejected "Please enter a valid port number (1-65535)" :=
  handleSearch_validates "8080" 8080 (by decide)

/-- C10: `removeFavoritePort(p)` removes every occurrence of `p` from the
favorites list — including duplicates — and leaves the list unchanged when
`p` is absent. -/
theorem removeFavoritePort_removes_all (port : Nat) (favs : List Nat) :
    port ∉ removeFavoritePort port favs ∧
    (port ∉ favs → removeFavoritePort port favs = favs) := by
  constructor
  · unfold removeFavoritePort
    intro hm
    have hkeep := List.of_mem_filter hm
    simp at hkeep
  · intro hp
    unfold removeFavoritePort
    apply List.filter_eq_self.mpr
    intro a ha
    have : a ≠ port := fun he => hp (he ▸ ha)
    simpa using this

/-- Witness for `removeFavoritePort_removes_all` with an absent port. -/
theorem removeFavoritePort_removes_all_witness :
    22 ∉ removeFavoritePort 22 [80, 443] ∧
    removeFavoritePort 22 [80, 443] = [80, 443] :=
  ⟨(removeFavoritePort_removes_all 22 [80, 443]).1,
   (removeFavoritePort_removes_all 22 [80, 443]).2 (by decide)⟩
